import Mathlib

/-!
# Verification of the WeChat content-verification bot (`src/main.py`)

Shallow embedding of the message-processing pipeline of the repository's
`main.py`:

* `cleanResponse`    — the six-step regex "JSON cleaning" pipeline of
                       `generate_reply` (lines 202–208);
* `jsonLoads`        — a strict JSON parser modelling Python's `json.loads`
                       (numbers are modelled as integers: the claims under
                       study only use integral scores; fraction/exponent
                       literals are rejected by the model);
* `buildCard`        — post-parse validation and card construction of
                       `generate_reply` (lines 214–230), with Python's
                       dynamic-typing behaviours (`in`, `[]`, `int(...)`,
                       `str.join`) modelled explicitly;
* `fetchWebContent`  — `fetch_web_content` (lines 133–163), with the HTTP
                       GET, the lxml xpath extraction and the readability
                       summary supplied as oracle functions;
* `extractContent`, `processMessage`, `handleWechat` — the message routing
                       and the error recovery of `process_message` /
                       `handle_wechat`.

External effects (HTTP, lxml, readability, the DeepSeek call) are passed in
as explicit function parameters; an `Except` error models a raised Python
exception.  All functions are executable.
-/

namespace Metis

/- ==================== basic characters and Python-style strings ====== -/

/-- The opening-brace character. -/
def lbraceC : Char := Char.ofNat 123

/-- The closing-brace character. -/
def rbraceC : Char := Char.ofNat 125

/-- The double-quote character. -/
def quoteC : Char := '"'

/-- The backslash character. -/
def bslashC : Char := '\\'

/-- The single-quote (apostrophe) character. -/
def squoteC : Char := Char.ofNat 39

/-- Python `str.strip()` / `\s` whitespace (ASCII part: space, tab, newline,
carriage return, vertical tab, form feed; the unicode whitespace Python also
accepts does not occur in any input considered here). -/
def isPySpace (c : Char) : Bool :=
  c = ' ' || c = '\t' || c = '\n' || c = '\r' || c = Char.ofNat 11 || c = Char.ofNat 12

/-- Python `str.strip()` on a character list: drop leading and trailing
whitespace. -/
def pyStripL (cs : List Char) : List Char :=
  ((cs.dropWhile isPySpace).reverse.dropWhile isPySpace).reverse

/-- Python `str.strip()`: drop leading and trailing whitespace. -/
def pyStrip (s : String) : String :=
  String.mk (pyStripL s.toList)

/-- Python string slicing `s[:n]` (by code points, as Python slices
`str`). -/
def pyTruncate (n : Nat) (s : String) : String :=
  String.mk (s.toList.take n)

/-- Does `needle` occur as a contiguous substring of `hay`?  Models the
Python expression `needle in hay` on strings (used by `fetch_web_content`'s
`'mp.weixin.qq.com' in url` test). -/
def listSubstr (needle : List Char) : List Char → Bool
  | [] => needle.isEmpty
  | c :: t => needle.isPrefixOf (c :: t) || listSubstr needle t

/-- String-level substring test (`needle in hay` in Python). -/
def strContainsSub (hay needle : String) : Bool :=
  listSubstr needle.toList hay.toList

/- ==================== the cleaning pipeline of generate_reply ========= -/

/-- Does `suffix` end the list? -/
def listEndsWith (suffix cs : List Char) : Bool :=
  suffix.reverse.isPrefixOf cs.reverse

/-- Step `re.sub(r'^```json|```$', '', s)` of `generate_reply`: without
`re.MULTILINE`, `^` anchors only at the start of the string and `$` matches
at the very end or just before a final newline, so the substitution removes
a literal ```` ```json ```` prefix and a final ```` ``` ```` (possibly
followed by one trailing newline, which stays). -/
def removeCodeFence (cs : List Char) : List Char :=
  let s1 := if "```json".toList.isPrefixOf cs then cs.drop 7 else cs
  if listEndsWith "```".toList s1 then (s1.reverse.drop 3).reverse
  else if listEndsWith "```\n".toList s1 then (s1.reverse.drop 4).reverse ++ ['\n']
  else s1

/-- Step `re.sub(r"'", '"', s)`: every single quote becomes a double
quote. -/
def singleToDouble (cs : List Char) : List Char :=
  cs.map (fun c => if c = squoteC then quoteC else c)

/-- Recursion for `escapeQuotes`: `prev` is the character preceding the
current position in the *original* string (the `(?<!\\)` lookbehind always
inspects the input text, never the replacement). -/
def escapeQuotesAux (prev : Option Char) : List Char → List Char
  | [] => []
  | c :: rest =>
    if c = quoteC && prev ≠ some bslashC then
      bslashC :: quoteC :: escapeQuotesAux (some c) rest
    else
      c :: escapeQuotesAux (some c) rest

/-- Step `re.sub(r'(?<!\\)"', r'\"', s)`: every double quote not directly
preceded by a backslash is replaced by `\"`.  (Note: this escapes *every*
delimiter quote of a JSON text as well.) -/
def escapeQuotes (cs : List Char) : List Char :=
  escapeQuotesAux none cs

/-- Recursion for `fixTrailingComma`; the fuel argument only bounds the
recursion depth (each step consumes at least one character of the input, so
`fuel = length` never runs out). -/
def fixTrailingCommaAux : Nat → List Char → List Char
  | 0, cs => cs
  | _ + 1, [] => []
  | fuel + 1, c :: rest =>
    if c = ',' then
      match rest.dropWhile isPySpace with
      | d :: rest3 =>
        if d = rbraceC || d = ']' then d :: fixTrailingCommaAux fuel rest3
        else ',' :: fixTrailingCommaAux fuel rest
      | [] => ',' :: fixTrailingCommaAux fuel rest
    else c :: fixTrailingCommaAux fuel rest

/-- Step `re.sub(r',\s*([}\]])', r'\1', s)`: a comma followed by whitespace
and a closing brace/bracket is replaced by the closer; the scan resumes
after the match, and on failure at a comma it resumes at the next
character. -/
def fixTrailingComma (cs : List Char) : List Char :=
  fixTrailingCommaAux cs.length cs

/-- Step `re.sub(r'[\x00-\x1F]', '', s)`: remove ASCII control
characters. -/
def stripControlChars (cs : List Char) : List Char :=
  cs.filter (fun c => !(c.toNat < 32))

/-- Recursion for `collapseBackslashes`; fuel as in
`fixTrailingCommaAux`. -/
def collapseBackslashesAux : Nat → List Char → List Char
  | 0, cs => cs
  | _ + 1, [] => []
  | fuel + 1, c :: rest =>
    if c = bslashC then
      bslashC :: collapseBackslashesAux fuel (rest.dropWhile (· = bslashC))
    else c :: collapseBackslashesAux fuel rest

/-- Step `re.sub(r'\\+', r'\\', s)`: collapse every run of backslashes to a
single backslash. -/
def collapseBackslashes (cs : List Char) : List Char :=
  collapseBackslashesAux cs.length cs

/-- The full cleaning pipeline of `generate_reply` (lines 202–208 of
`main.py`), in source order: strip, fence removal, quote normalisation,
quote escaping, trailing-comma fix, control-character removal, backslash
collapse. -/
def cleanResponse (analysis : String) : String :=
  let c1 := pyStripL analysis.toList
  let c2 := removeCodeFence c1
  let c3 := singleToDouble c2
  let c4 := escapeQuotes c3
  let c5 := fixTrailingComma c4
  let c6 := stripControlChars c5
  String.mk (collapseBackslashes c6)

/- ==================== JSON values and json.loads ===================== -/

/-- Parsed JSON values, as produced by Python's `json.loads`.  Numbers are
modelled as integers (see the file header); objects keep their fields in
source order, duplicate keys included — lookups take the last occurrence,
which is Python's dict-insertion semantics. -/
inductive Json : Type where
  | null : Json
  | bool (b : Bool) : Json
  | num (n : Int) : Json
  | str (s : String) : Json
  | arr (xs : List Json) : Json
  | obj (fields : List (String × Json)) : Json

/-- Is the value a JSON array (a Python `list`)? -/
def Json.isArr : Json → Bool
  | .arr _ => true
  | _ => false

/-- Is the value a JSON string (a Python `str`)? -/
def Json.isStr : Json → Bool
  | .str _ => true
  | _ => false

/-- JSON insignificant whitespace (exactly the four characters
`json.loads` skips between tokens). -/
def jsonWs (c : Char) : Bool :=
  c = ' ' || c = '\t' || c = '\n' || c = '\r'

/-- Skip JSON whitespace. -/
def skipJsonWs : List Char → List Char
  | [] => []
  | c :: rest => if jsonWs c then skipJsonWs rest else c :: rest

/-- Hexadecimal digit value. -/
def hexVal (c : Char) : Option Nat :=
  if '0' ≤ c && c ≤ '9' then some (c.toNat - 48)
  else if 'a' ≤ c && c ≤ 'f' then some (c.toNat - 87)
  else if 'A' ≤ c && c ≤ 'F' then some (c.toNat - 55)
  else none

/-- Decimal digits to a natural number. -/
def digitsToNat (ds : List Char) : Nat :=
  ds.foldl (fun a c => a * 10 + (c.toNat - 48)) 0

/-- Parse a JSON number at the head of the input (integers only; a
fraction or exponent makes the model parser fail, see the file header;
the leading-zero restriction of strict JSON is not modelled). -/
def parseJNumber (cs : List Char) : Option (Json × List Char) :=
  let (neg, cs1) := match cs with
    | '-' :: r => (true, r)
    | _ => (false, cs)
  let ds := cs1.takeWhile Char.isDigit
  let rest := cs1.dropWhile Char.isDigit
  if ds.isEmpty then none
  else
    match rest with
    | '.' :: _ => none
    | 'e' :: _ => none
    | 'E' :: _ => none
    | _ =>
      let n : Int := Int.ofNat (digitsToNat ds)
      some (.num (if neg then -n else n), rest)

/-- Parse the body of a JSON string literal (the opening quote already
consumed), handling the escape sequences of strict JSON; raw control
characters below `0x20` are rejected (strict mode).  Surrogate pairs in
`\uXXXX` escapes are not combined. -/
def parseJString : Nat → List Char → Option (List Char × List Char)
  | 0, _ => none
  | _ + 1, [] => none
  | fuel + 1, c :: rest =>
    if c = quoteC then some ([], rest)
    else if c = bslashC then
      match rest with
      | [] => none
      | e :: r2 =>
        let dec : Option (Char × List Char) :=
          if e = quoteC then some (quoteC, r2)
          else if e = bslashC then some (bslashC, r2)
          else if e = '/' then some ('/', r2)
          else if e = 'b' then some (Char.ofNat 8, r2)
          else if e = 'f' then some (Char.ofNat 12, r2)
          else if e = 'n' then some ('\n', r2)
          else if e = 'r' then some ('\r', r2)
          else if e = 't' then some ('\t', r2)
          else if e = 'u' then
            match r2 with
            | h1 :: h2 :: h3 :: h4 :: r3 =>
              match hexVal h1, hexVal h2, hexVal h3, hexVal h4 with
              | some a, some b, some c2, some d =>
                  some (Char.ofNat (((a * 16 + b) * 16 + c2) * 16 + d), r3)
              | _, _, _, _ => none
            | _ => none
          else none
        match dec with
        | some (ch, r3) =>
          match parseJString fuel r3 with
          | some (s, r4) => some (ch :: s, r4)
          | none => none
        | none => none
    else if c.toNat < 32 then none
    else
      match parseJString fuel rest with
      | some (s, r4) => some (c :: s, r4)
      | none => none

mutual

/-- Parse a JSON value at the head of the input (whitespace allowed
before it).  Fuel bounds the recursion depth; every recursive call is
preceded by the consumption of at least one character, so any fuel larger
than the input length is enough. -/
def parseJValue : Nat → List Char → Option (Json × List Char)
  | 0, _ => none
  | fuel + 1, cs =>
    match skipJsonWs cs with
    | [] => none
    | c :: rest =>
      if c = quoteC then
        match parseJString (fuel + 1) rest with
        | some (s, r) => some (.str (String.mk s), r)
        | none => none
      else if c = lbraceC then
        match skipJsonWs rest with
        | d :: r2 =>
          if d = rbraceC then some (.obj [], r2)
          else
            match parseJObjItems fuel rest with
            | some (fs, r3) => some (.obj fs, r3)
            | none => none
        | [] => none
      else if c = '[' then
        match skipJsonWs rest with
        | d :: r2 =>
          if d = ']' then some (.arr [], r2)
          else
            match parseJArrItems fuel rest with
            | some (vs, r3) => some (.arr vs, r3)
            | none => none
        | [] => none
      else if c = 't' then
        if "rue".toList.isPrefixOf rest then some (.bool true, rest.drop 3)
        else none
      else if c = 'f' then
        if "alse".toList.isPrefixOf rest then some (.bool false, rest.drop 4)
        else none
      else if c = 'n' then
        if "ull".toList.isPrefixOf rest then some (.null, rest.drop 3)
        else none
      else parseJNumber (c :: rest)

/-- Parse the comma-separated items of a non-empty JSON array, up to and
including the closing bracket. -/
def parseJArrItems : Nat → List Char → Option (List Json × List Char)
  | 0, _ => none
  | fuel + 1, cs =>
    match parseJValue fuel cs with
    | none => none
    | some (v, r) =>
      match skipJsonWs r with
      | ',' :: r2 =>
        match parseJArrItems fuel r2 with
        | some (vs, r3) => some (v :: vs, r3)
        | none => none
      | d :: r2 =>
        if d = ']' then some ([v], r2) else none
      | [] => none

/-- Parse the comma-separated `"key": value` members of a non-empty JSON
object, up to and including the closing brace. -/
def parseJObjItems : Nat → List Char → Option (List (String × Json) × List Char)
  | 0, _ => none
  | fuel + 1, cs =>
    match skipJsonWs cs with
    | c :: rest =>
      if c = quoteC then
        match parseJString fuel rest with
        | some (k, r2) =>
          match skipJsonWs r2 with
          | ':' :: r3 =>
            match parseJValue fuel r3 with
            | some (v, r4) =>
              match skipJsonWs r4 with
              | ',' :: r5 =>
                match parseJObjItems fuel r5 with
                | some (fs, r6) => some ((String.mk k, v) :: fs, r6)
                | none => none
              | d :: r5 =>
                if d = rbraceC then some ([(String.mk k, v)], r5) else none
              | [] => none
            | none => none
          | _ => none
        | none => none
      else none
    | [] => none

end

/-- Model of Python's `json.loads`: parse one value, allow surrounding
whitespace, reject trailing data. -/
def jsonLoads (s : String) : Except String Json :=
  let cs := s.toList
  match parseJValue (cs.length * 4 + 16) cs with
  | none => .error "JSONDecodeError"
  | some (v, rest) =>
    if (skipJsonWs rest).isEmpty then .ok v
    else .error "JSONDecodeError"

/- ==================== Python dynamic-typing semantics ================= -/

/-- Python `k in data` for a string `k`: key membership for a dict,
element equality for a list, substring test for a string; a `TypeError`
(modelled as `.error`) for the non-container types. -/
def pyContains (data : Json) (k : String) : Except String Bool :=
  match data with
  | .obj fs => .ok (fs.any (fun kv => kv.1 = k))
  | .arr xs => .ok (xs.any (fun x => match x with
      | .str s => s = k
      | _ => false))
  | .str s => .ok (strContainsSub s k)
  | _ => .error "TypeError"

/-- Python `all(k in data for k in ks)`, short-circuiting on the first
`False`. -/
def pyAllKeys (data : Json) : List String → Except String Bool
  | [] => .ok true
  | k :: ks =>
    match pyContains data k with
    | .error e => .error e
    | .ok false => .ok false
    | .ok true => pyAllKeys data ks

/-- Last-occurrence association lookup: Python's dict built by
`json.loads` keeps the value of the last duplicate key. -/
def lookupLast (fs : List (String × Json)) (k : String) : Option Json :=
  fs.foldl (fun acc kv => if kv.1 = k then some kv.2 else acc) none

/-- Python `data[k]` for a string key: only a dict supports it; a missing
key is a `KeyError`, any other type a `TypeError` (both modelled as
`.error`). -/
def pyGetItem (data : Json) (k : String) : Except String Json :=
  match data with
  | .obj fs =>
    match lookupLast fs k with
    | some v => .ok v
    | none => .error "KeyError"
  | _ => .error "TypeError"

/-- Python `int(s)` on a string: surrounding whitespace, an optional
sign, then decimal digits (numeric-literal underscores are not
modelled). -/
def parseIntString (s : String) : Except String Int :=
  let cs := (pyStrip s).toList
  let (neg, cs1) := match cs with
    | '-' :: r => (true, r)
    | '+' :: r => (false, r)
    | _ => (false, cs)
  if cs1 ≠ [] && cs1.all Char.isDigit then
    let n : Int := Int.ofNat (digitsToNat cs1)
    .ok (if neg then -n else n)
  else .error "ValueError"

/-- Python `int(x)`: identity on an int, `1`/`0` on a bool (Python bools
are ints), numeric-string parsing on a str, `TypeError` otherwise. -/
def pyInt : Json → Except String Int
  | .num n => .ok n
  | .bool b => .ok (if b then 1 else 0)
  | .str s => parseIntString s
  | _ => .error "TypeError"

mutual

/-- Python `repr` of a parsed JSON value, used by `str()` on
non-string values.  String escaping inside `repr` is not reproduced
character-for-character (no claim depends on it); the structural shape
(`None`/`True`/`False`, bracketed lists, quoted strings) is. -/
def pyRepr : Json → String
  | .null => "None"
  | .bool b => if b then "True" else "False"
  | .num n => toString n
  | .str s => String.singleton squoteC ++ s ++ String.singleton squoteC
  | .arr xs => "[" ++ pyReprList xs ++ "]"
  | .obj fs =>
      String.singleton lbraceC ++ pyReprFields fs ++ String.singleton rbraceC

/-- Comma-separated reprs of list elements. -/
def pyReprList : List Json → String
  | [] => ""
  | [x] => pyRepr x
  | x :: rest => pyRepr x ++ ", " ++ pyReprList rest

/-- Comma-separated reprs of dict items. -/
def pyReprFields : List (String × Json) → String
  | [] => ""
  | [kv] => String.singleton squoteC ++ kv.1 ++ String.singleton squoteC ++ ": " ++ pyRepr kv.2
  | kv :: rest =>
      String.singleton squoteC ++ kv.1 ++ String.singleton squoteC ++ ": " ++ pyRepr kv.2
        ++ ", " ++ pyReprFields rest

end

/-- Python `str(x)` (the conversion an f-string performs): a string is
itself, anything else its repr. -/
def pyStrOf : Json → String
  | .str s => s
  | v => pyRepr v

/-- Python `sep.join(xs)` over the elements of a list: every element must
be a `str`, otherwise a `TypeError` is raised (at the first offending
element). -/
def pyJoinStrs : List Json → Except String (List String)
  | [] => .ok []
  | .str s :: rest =>
    match pyJoinStrs rest with
    | .ok ss => .ok (s :: ss)
    | .error e => .error e
  | _ :: _ => .error "TypeError"

/- ==================== generate_reply ================================= -/

/-- One article of a WeChat rich-card reply (`title` / `description` /
`picurl` as passed to `create_reply`). -/
structure Article : Type where
  title : String
  description : String
  picurl : String
deriving DecidableEq

/-- The logical reply payload: either a plain-text reply or an
article-card reply (the XML serialisation done by `wechatpy`'s
`render()` is the external collaborator's concern). -/
inductive Reply : Type where
  | text (s : String) : Reply
  | articles (items : List Article) : Reply
deriving DecidableEq

/-- The score-to-colour selection of `generate_reply` (line 222):
`"00c853" if score >= 85 else "ffd600" if score >= 65 else "d50000"`. -/
def colorFor (score : Int) : String :=
  if score ≥ 85 then "00c853" else if score ≥ 65 then "ffd600" else "d50000"

/-- Post-parse validation and card construction of `generate_reply`
(lines 214–230), in source order: presence of the three keys, the
`isinstance(data['details'], list)` check, `int(data['score'])`, colour
selection, then the card whose description joins the detail bullets (the
join raises on a non-string element).  An `.error` models an exception
reaching `generate_reply`'s generic handler. -/
def buildCard (data : Json) : Except String Article :=
  match pyAllKeys data ["score", "analysis", "details"] with
  | .error e => .error e
  | .ok false => .error "缺少必要字段"
  | .ok true =>
    match pyGetItem data "details" with
    | .error e => .error e
    | .ok dts =>
      if !dts.isArr then .error "details应为列表"
      else
        match pyGetItem data "score" with
        | .error e => .error e
        | .ok sv =>
          match pyInt sv with
          | .error e => .error e
          | .ok score =>
            let color := colorFor score
            match pyGetItem data "analysis" with
            | .error e => .error e
            | .ok ana =>
              match (match dts with
                     | .arr xs => pyJoinStrs xs
                     | _ => .error "TypeError") with
              | .error e => .error e
              | .ok bullets =>
                .ok { title := "📊 可信度评分：" ++ toString score ++ "/100"
                      description := pyStrOf ana ++ "\n\n🔍 关键点：\n• "
                        ++ String.intercalate "\n• " bullets
                      picurl := "https://fakeimg.pl/600x400/" ++ color
                        ++ "/fff/?text=" ++ toString score ++ "分" }

/-- The part of `generate_reply` after a successful parse: a built card
becomes the article reply; any exception on the way is caught by the
generic handler and becomes the fixed reply-generation error text. -/
def postParse (data : Json) : Reply :=
  match buildCard data with
  | .ok art => .articles [art]
  | .error _ => .text "生成回复时发生错误"

/-- `generate_reply` (lines 198–240): clean the raw model response, parse
it strictly, then validate and build the card; a parse failure is caught
by the `json.JSONDecodeError` handler (fixed format-error reply), any
later exception by the generic handler (fixed generation-error reply). -/
def generateReply (analysis : String) : Reply :=
  match jsonLoads (cleanResponse analysis) with
  | .error _ => .text "分析结果格式异常"
  | .ok data => postParse data

/- ==================== fetch_web_content ============================== -/

/-- The domain test of `fetch_web_content` (line 147): the Python
expression `'mp.weixin.qq.com' in url` — a substring test over the whole
URL text. -/
def wechatCheck (url : String) : Bool :=
  strContainsSub url "mp.weixin.qq.com"

/-- `fetch_web_content` without its exception handler.  `get` models
`http.get(url, ...)` followed by `raise_for_status()` (an `.error` is a
network error, timeout, or a 4xx/5xx status raised there); `xp` models
`html.fromstring(...)` plus the `//div[@id="js_content"]//text()` xpath
(an `.error` a parse exception); `rd` models
`readability.Document(...).summary()`. -/
def fetchAttempt (get : String → Except String String)
    (xp : String → Except String (List String))
    (rd : String → Except String String) (url : String) :
    Except String String :=
  match get url with
  | .error e => .error e
  | .ok body =>
    let generic :=
      match rd body with
      | .error e => .error e
      | .ok summary => Except.ok (pyTruncate 3000 summary)
    if wechatCheck url then
      match xp body with
      | .error e => .error e
      | .ok nodes =>
        if nodes.isEmpty then generic
        else .ok (pyTruncate 3000 (pyStrip (String.intercalate "\n" nodes)))
    else generic

/-- `fetch_web_content` (lines 133–163): any exception inside is caught
and re-raised as the fixed `RuntimeError` text. -/
def fetchWebContent (get : String → Except String String)
    (xp : String → Except String (List String))
    (rd : String → Except String String) (url : String) :
    Except String String :=
  match fetchAttempt get xp rd url with
  | .ok c => .ok c
  | .error _ => .error "内容获取失败，请检查链接有效性"

/- ==================== message routing ================================ -/

/-- The inbound message after `parse_message`, restricted to what
`process_message` distinguishes: a text message, a link message, or any
other type. -/
inductive InMsg : Type where
  | text (content : String) : InMsg
  | link (url : String) : InMsg
  | other : InMsg

/-- Match `https?://\S+` at the head of the input: the literal scheme,
then one or more non-whitespace characters (greedy). -/
def matchHttpAt (cs : List Char) : Option String :=
  let tryLen (plen : Nat) : Option String :=
    let body := (cs.drop plen).takeWhile (fun c => !isPySpace c)
    if body.isEmpty then none
    else some (String.mk (cs.take plen ++ body))
  if "https://".toList.isPrefixOf cs then tryLen 8
  else if "http://".toList.isPrefixOf cs then tryLen 7
  else none

/-- Recursion for `findUrl`: try the pattern at each position, left to
right. -/
def findUrlAux : List Char → Option String
  | [] => none
  | c :: rest =>
    match matchHttpAt (c :: rest) with
    | some url => some url
    | none => findUrlAux rest

/-- `re.search(r'https?://\S+', text)` of `extract_content` (line 121):
the first (leftmost) match, or `none`. -/
def findUrl (text : String) : Option String :=
  findUrlAux text.toList

/-- `extract_content` (lines 116–131): a text message is scanned for a
URL (fetch it if found, otherwise the text itself is the content); a
link message fetches its URL; any other type leaves the initial empty
content. -/
def extractContent (get : String → Except String String)
    (xp : String → Except String (List String))
    (rd : String → Except String String) (msg : InMsg) :
    Except String String :=
  match msg with
  | .text content =>
    match findUrl content with
    | some url => fetchWebContent get xp rd url
    | none => .ok content
  | .link url => fetchWebContent get xp rd url
  | .other => .ok ""

/-- `process_message` (lines 82–114).  `analyze` models
`analyze_content` (the DeepSeek POST; an `.error` is any exception it
raises).  Unsupported types answer the fixed unsupported-type text;
empty extracted content the fixed no-content text; an exception during
extraction reaches the outer handler (fixed processing-error text); an
analyzer exception its dedicated handler (fixed service-unavailable
text); otherwise the raw model response goes to `generate_reply`. -/
def processMessage (get : String → Except String String)
    (xp : String → Except String (List String))
    (rd : String → Except String String)
    (analyze : String → Except String String) (msg : InMsg) : Reply :=
  match msg with
  | .other => .text "暂不支持此消息类型"
  | m =>
    match extractContent get xp rd m with
    | .error _ => .text "消息处理出错"
    | .ok content =>
      if content = "" then .text "未获取到有效内容"
      else
        match analyze (pyTruncate 3000 content) with
        | .error _ => .text "分析服务暂时不可用"
        | .ok analysis => generateReply analysis

/-- The POST branch of `handle_wechat` (lines 46–56): `process_message`
under one more catch-all (which substitutes the fixed server-error text;
in this total model `processMessage` already returns a value on every
input, so that branch is unreachable). -/
def handleWechat (get : String → Except String String)
    (xp : String → Except String (List String))
    (rd : String → Except String String)
    (analyze : String → Except String String) (msg : InMsg) : Reply :=
  processMessage get xp rd analyze msg

/-- The fixed user-facing reply texts of `main.py`: unsupported type, no
content, analysis unavailable, parse-format error, reply-generation
error, processing error, and the outermost server error. -/
def fixedReplies : List String :=
  ["暂不支持此消息类型", "未获取到有效内容", "分析服务暂时不可用",
   "分析结果格式异常", "生成回复时发生错误", "消息处理出错",
   "服务器处理消息时发生错误"]

/- ==================== spec-side notions ============================== -/

/-- The text following the first `"://"`, if any. -/
def afterScheme : List Char → Option (List Char)
  | [] => none
  | ':' :: '/' :: '/' :: rest => some rest
  | _ :: rest => afterScheme rest

/-- Modelled from the spec: the URL's *host* — the text between `"://"`
and the next `/`, `?` or `#` (or the end).  The source never computes a
host; the spec's domain-specific-extraction trigger speaks of the URL's
host, so this definition renders the spec's words for comparison with
the source's `wechatCheck`. -/
def urlHost (url : String) : String :=
  match afterScheme url.toList with
  | some rest =>
      String.mk (rest.takeWhile
        (fun c => !(c = '/' || c = '?' || c = Char.ofNat 35)))
  | none => ""

/-- Is an `Except` a success? -/
def exceptOk {ε α : Type} : Except ε α → Bool
  | .ok _ => true
  | .error _ => false

/- ==================== concrete test fixtures ========================= -/

/-- The canonical already-valid strict JSON text of the spec
(`braces written with escape codes`). -/
def canonicalJson : String :=
  "\x7b\"score\":72,\"analysis\":\"...\",\"details\":[\"a\",\"b\"]\x7d"

/-- The record `json.loads` yields on `canonicalJson` directly. -/
def canonicalRecord : Json :=
  .obj [("score", .num 72), ("analysis", .str "..."),
        ("details", .arr [.str "a", .str "b"])]

/-- The raw model response of the spec scenario: a ```` ```json ````
fence around a single-quoted pseudo-JSON object with a trailing
comma. -/
def fencedResponse : String :=
  "```json\n\x7b" ++ String.singleton squoteC ++ "score" ++ String.singleton squoteC
    ++ ": 91, " ++ String.singleton squoteC ++ "analysis" ++ String.singleton squoteC
    ++ ": " ++ String.singleton squoteC ++ "looks credible" ++ String.singleton squoteC
    ++ ", " ++ String.singleton squoteC ++ "details" ++ String.singleton squoteC
    ++ ": [" ++ String.singleton squoteC ++ "a" ++ String.singleton squoteC
    ++ "," ++ String.singleton squoteC ++ "b" ++ String.singleton squoteC
    ++ "],\x7d\n```"

/-- A parsed response whose score is the given integer, with valid
analysis and details (used to probe the score validation). -/
def scoreProbe (s : Int) : Json :=
  .obj [("score", .num s), ("analysis", .str "x"), ("details", .arr [.str "a"])]

/-- A parsed response with a valid score and analysis and the given
details list (used to probe the details validation). -/
def detailsProbe (s : Int) (a : String) (ds : List Json) : Json :=
  .obj [("score", .num s), ("analysis", .str a), ("details", .arr ds)]

/-- A 20-character extracted content without any URL. -/
def short20 : String := "abcdefghij0123456789"

/-- A URL whose host is not the WeChat article host but whose query
string mentions it. -/
def queryUrl : String := "https://example.com/share?src=mp.weixin.qq.com"

/-- A fetch oracle that always fails (network error / bad status). -/
def failGet : String → Except String String := fun _ => .error "ConnectionError"

/-- A fetch oracle returning a fixed page. -/
def demoGet : String → Except String String := fun _ => .ok "<html>"

/-- An xpath oracle finding two text nodes in the WeChat container. -/
def demoXp : String → Except String (List String) := fun _ => .ok ["段落一", "段落二"]

/-- An xpath oracle finding no WeChat container nodes. -/
def emptyXp : String → Except String (List String) := fun _ => .ok []

/-- A readability oracle returning a fixed summary. -/
def demoRd : String → Except String String := fun _ => .ok "generic-summary"

/-- An analyzer oracle that always raises. -/
def failAnalyze : String → Except String String := fun _ => .error "apifail"

/-- An analyzer oracle answering a fixed non-JSON text. -/
def okAnalyze : String → Except String String := fun _ => .ok "whatever"

/- ==================== helper lemmas ================================== -/

/-- A details list with a non-string element makes the bullet join raise
(Python `str.join` demands string items). -/
theorem pyJoinStrs_error_of_nonstring :
    ∀ ds : List Json, (∃ x ∈ ds, x.isStr = false) →
      ∃ e, pyJoinStrs ds = .error e := by
  intro ds h
  induction ds with
  | nil => simp at h
  | cons x rest ih =>
    match x with
    | .str s =>
      rcases h with ⟨y, hy, hys⟩
      rcases List.mem_cons.mp hy with h1 | h2
      · subst h1; simp [Json.isStr] at hys
      · rcases ih ⟨y, h2, hys⟩ with ⟨e, he⟩
        exact ⟨e, by simp [pyJoinStrs, he]⟩
    | .null => exact ⟨"TypeError", rfl⟩
    | .bool b => exact ⟨"TypeError", rfl⟩
    | .num n => exact ⟨"TypeError", rfl⟩
    | .arr xs => exact ⟨"TypeError", rfl⟩
    | .obj fs => exact ⟨"TypeError", rfl⟩

/-- `generateReply` always yields either one of the fixed reply texts or
a one-article card. -/
theorem generateReply_shape (a : String) :
    (∃ s, generateReply a = .text s ∧ s ∈ fixedReplies)
    ∨ (∃ art, generateReply a = .articles [art]) := by
  rcases hJ : jsonLoads (cleanResponse a) with e | data
  · left
    refine ⟨"分析结果格式异常", ?_, by decide⟩
    simp [generateReply, hJ]
  · rcases hB : buildCard data with e | art
    · left
      refine ⟨"生成回复时发生错误", ?_, by decide⟩
      simp [generateReply, postParse, hJ, hB]
    · right
      refine ⟨art, ?_⟩
      simp [generateReply, postParse, hJ, hB]

/- ==================== the claims ===================================== -/

/-- C1 (code behavior at the failing input): parsing the canonical
strict-JSON text directly succeeds with the expected record, but the
repair pipeline escapes every delimiter quote, so parsing the cleaned
text fails and the sanitizer answers the fixed parse-failure reply
instead of succeeding — the claimed idempotence does not hold on the
code. -/
theorem c1_pipeline_breaks_valid_json :
    jsonLoads canonicalJson = .ok canonicalRecord
    ∧ jsonLoads (cleanResponse canonicalJson) = .error "JSONDecodeError"
    ∧ generateReply canonicalJson = .text "分析结果格式异常" :=
  ⟨rfl, rfl, rfl⟩

/-- C2 (code behavior at the failing input): the fenced single-quoted
response of the spec scenario is cleaned into a text whose quotes are all
escaped, the strict parse fails, and `generate_reply` answers the fixed
parse-failure reply — no `score 91` card is ever produced. -/
theorem c2_fenced_response_not_repaired :
    jsonLoads (cleanResponse fencedResponse) = .error "JSONDecodeError"
    ∧ generateReply fencedResponse = .text "分析结果格式异常" :=
  ⟨rfl, rfl⟩

/-- C3 (counterexample): a parsed, otherwise well-formed record with the
out-of-range score 150 is not rejected — validation passes and a full
card (high-confidence colour, score 150 in the title) is built. -/
theorem c3_out_of_range_score_accepted :
    buildCard (scoreProbe 150) =
      .ok { title := "📊 可信度评分：150/100"
            description := "x\n\n🔍 关键点：\n• a"
            picurl := "https://fakeimg.pl/600x400/00c853/fff/?text=150分" }
    ∧ postParse (scoreProbe 150) ≠ .text "生成回复时发生错误" := by
  constructor
  · rfl
  · decide

/-- C3 (amended): the post-parse validation has no score-range check at
all — for every integer score, in range or not, the record passes
validation and a card is built. -/
theorem c3_no_score_range_validation (s : Int) :
    exceptOk (buildCard (scoreProbe s)) = true := by
  simp [buildCard, scoreProbe, pyAllKeys, pyContains, pyGetItem, lookupLast,
        pyInt, Json.isArr, pyJoinStrs, exceptOk]

/-- C6: the reply builder selects the card colour purely by the two
inclusive lower-bound thresholds of line 222, with the claimed values at
90 / 70 / 40 and at the boundaries 85 / 65. -/
theorem c6_color_thresholds :
    (∀ s : Int, 85 ≤ s → colorFor s = "00c853")
    ∧ (∀ s : Int, 65 ≤ s → s < 85 → colorFor s = "ffd600")
    ∧ (∀ s : Int, s < 65 → colorFor s = "d50000")
    ∧ colorFor 90 = "00c853" ∧ colorFor 70 = "ffd600"
    ∧ colorFor 40 = "d50000" ∧ colorFor 85 = "00c853"
    ∧ colorFor 65 = "ffd600" := by
  refine ⟨?_, ?_, ?_, by decide, by decide, by decide, by decide, by decide⟩
  · intro s h; unfold colorFor; rw [if_pos h]
  · intro s h1 h2; unfold colorFor
    rw [if_neg (by omega), if_pos h1]
  · intro s h; unfold colorFor
    rw [if_neg (by omega), if_neg (by omega)]

/-- C6 (witness): the theorem applied at score 90. -/
theorem c6_color_thresholds_witness : colorFor 90 = "00c853" :=
  c6_color_thresholds.1 90 (by decide)

/-- C4 (counterexample): a 20-character extracted content (below the
minimum the claim requires) is not rejected — the analyzer is invoked on
it, observably: a failing analyzer yields the analysis-unavailable reply
and a succeeding one the format-error reply, and no early
short-content rejection happens. -/
theorem c4_short_content_reaches_analyzer :
    short20.length = 20
    ∧ processMessage failGet emptyXp demoRd failAnalyze (.text short20) =
        .text "分析服务暂时不可用"
    ∧ processMessage failGet emptyXp demoRd okAnalyze (.text short20) =
        .text "分析结果格式异常" := by
  refine ⟨by decide, rfl, rfl⟩

/-- C4 (amended): the only early gate on extracted content is emptiness —
any non-empty text content without a URL is passed (truncated to 3000
characters) straight to the analyzer, whose outcome alone determines the
reply; there is no minimum-length check. -/
theorem c4_only_empty_content_rejected
    (get : String → Except String String)
    (xp : String → Except String (List String))
    (rd : String → Except String String)
    (analyze : String → Except String String) (content : String)
    (hurl : findUrl content = none) (hne : content ≠ "") :
    processMessage get xp rd analyze (.text content) =
      match analyze (pyTruncate 3000 content) with
      | .error _ => .text "分析服务暂时不可用"
      | .ok analysis => generateReply analysis := by
  simp [processMessage, extractContent, hurl, hne]

/-- C4 (witness): the amended theorem applied to the 20-character
content and a failing analyzer. -/
theorem c4_only_empty_content_rejected_witness :
    processMessage failGet emptyXp demoRd failAnalyze (.text short20) =
      .text "分析服务暂时不可用" := by
  rw [c4_only_empty_content_rejected failGet emptyXp demoRd failAnalyze
        short20 rfl (by decide)]
  rfl

/-- C5 (counterexample): a URL whose host is `example.com` but whose
query string mentions the platform host still triggers the
domain-specific extraction — the result is the joined WeChat-container
text, not the generic readability summary the claim requires for
non-platform hosts. -/
theorem c5_query_substring_triggers_domain_branch :
    urlHost queryUrl = "example.com"
    ∧ urlHost queryUrl ≠ "mp.weixin.qq.com"
    ∧ wechatCheck queryUrl = true
    ∧ fetchWebContent demoGet demoXp demoRd queryUrl = .ok "段落一\n段落二"
    ∧ demoRd "<html>" = .ok "generic-summary" := by
  refine ⟨by decide, by decide, by decide, rfl, rfl⟩

/-- C5 (amended): the domain-specific strategy is attempted exactly when
the whole URL text contains the platform host as a substring (the
source's `in` test) — when it does and the container yields nodes, the
joined container text is returned; when it does not, the fetch goes
directly to the generic readability extraction. -/
theorem c5_substring_decides_strategy
    (get : String → Except String String)
    (xp : String → Except String (List String))
    (rd : String → Except String String) (url body : String)
    (hget : get url = .ok body) :
    (wechatCheck url = true → ∀ n ns, xp body = .ok (n :: ns) →
      fetchWebContent get xp rd url =
        .ok (pyTruncate 3000 (pyStrip (String.intercalate "\n" (n :: ns)))))
    ∧ (wechatCheck url = false →
      fetchWebContent get xp rd url =
        match rd body with
        | .ok summary => .ok (pyTruncate 3000 summary)
        | .error _ => .error "内容获取失败，请检查链接有效性") := by
  constructor
  · intro hwc n ns hxp
    simp [fetchWebContent, fetchAttempt, hget, hwc, hxp]
  · intro hwc
    rcases hrd : rd body with e | summary <;>
      simp [fetchWebContent, fetchAttempt, hget, hwc, hrd]

/-- C5 (witness): the amended theorem applied to a non-platform URL with
the demo oracles — the generic readability result comes back. -/
theorem c5_substring_decides_strategy_witness :
    fetchWebContent demoGet demoXp demoRd "https://example.com/a" =
      .ok "generic-summary" := by
  rw [(c5_substring_decides_strategy demoGet demoXp demoRd
        "https://example.com/a" "<html>" rfl).2 (by decide)]
  rfl

/-- C7: any failure of the content fetcher (network error, bad status,
parse exception — anything that makes `fetchWebContent` raise) surfaces
through the outer handler of `process_message` as the one fixed
processing-error reply, for a text message carrying the URL as well as
for a link message — never a different reply and never a raw
exception. -/
theorem c7_fetch_failure_fixed_reply
    (get : String → Except String String)
    (xp : String → Except String (List String))
    (rd : String → Except String String)
    (analyze : String → Except String String) (t url e : String)
    (hfind : findUrl t = some url)
    (hfail : fetchWebContent get xp rd url = .error e) :
    processMessage get xp rd analyze (.text t) = .text "消息处理出错"
    ∧ processMessage get xp rd analyze (.link url) = .text "消息处理出错" := by
  constructor <;> simp [processMessage, extractContent, hfind, hfail]

/-- C7 (witness): the spec scenario — the Chinese text with an
unreachable `https://example.com/a` link yields the fixed
processing-error reply. -/
theorem c7_fetch_failure_fixed_reply_witness :
    processMessage failGet demoXp demoRd okAnalyze
      (.text "快看这个 https://example.com/a") = .text "消息处理出错" :=
  (c7_fetch_failure_fixed_reply failGet demoXp demoRd okAnalyze
    "快看这个 https://example.com/a" "https://example.com/a"
    "内容获取失败，请检查链接有效性" rfl rfl).1

/-- C8: on a platform URL whose fetched document has no
`js_content` container (the xpath yields no nodes), the domain-specific
strategy produces nothing and control falls through to the generic
readability extraction — an empty container match is never returned as
success. -/
theorem c8_empty_container_falls_through
    (get : String → Except String String)
    (xp : String → Except String (List String))
    (rd : String → Except String String) (url body : String)
    (hget : get url = .ok body) (hwc : wechatCheck url = true)
    (hxp : xp body = .ok []) :
    fetchWebContent get xp rd url =
      match rd body with
      | .ok summary => .ok (pyTruncate 3000 summary)
      | .error _ => .error "内容获取失败，请检查链接有效性" := by
  rcases hrd : rd body with e | summary <;>
    simp [fetchWebContent, fetchAttempt, hget, hwc, hxp, hrd]

/-- C8 (witness): the theorem applied to a WeChat article URL whose page
lacks the container — the readability summary is returned. -/
theorem c8_empty_container_falls_through_witness :
    fetchWebContent demoGet emptyXp demoRd "https://mp.weixin.qq.com/s/abc" =
      .ok "generic-summary" := by
  rw [c8_empty_container_falls_through demoGet emptyXp demoRd
        "https://mp.weixin.qq.com/s/abc" "<html>" rfl (by decide) rfl]
  rfl

/-- C9: the message handler is total — for every message and every
behavior of the fetch, xpath, readability and analyzer collaborators,
the reply is either one of the fixed non-technical reply texts or a
one-article card; no exception ever reaches the transport layer. -/
theorem c9_handler_total_fixed_replies
    (get : String → Except String String)
    (xp : String → Except String (List String))
    (rd : String → Except String String)
    (analyze : String → Except String String) (msg : InMsg) :
    (∃ s, handleWechat get xp rd analyze msg = .text s ∧ s ∈ fixedReplies)
    ∨ (∃ a, handleWechat get xp rd analyze msg = .articles [a]) := by
  cases msg with
  | other =>
    exact Or.inl ⟨"暂不支持此消息类型", rfl, by decide⟩
  | text t =>
    rcases hE : extractContent get xp rd (.text t) with e | content
    · exact Or.inl ⟨"消息处理出错", by simp [handleWechat, processMessage, hE], by decide⟩
    · by_cases hc : content = ""
      · exact Or.inl ⟨"未获取到有效内容",
          by simp [handleWechat, processMessage, hE, hc], by decide⟩
      · rcases hA : analyze (pyTruncate 3000 content) with e | analysis
        · exact Or.inl ⟨"分析服务暂时不可用",
            by simp [handleWechat, processMessage, hE, hc, hA], by decide⟩
        · have hR : handleWechat get xp rd analyze (.text t) =
              generateReply analysis := by
            simp [handleWechat, processMessage, hE, hc, hA]
          rw [hR]
          exact generateReply_shape analysis
  | link u =>
    rcases hE : extractContent get xp rd (.link u) with e | content
    · exact Or.inl ⟨"消息处理出错", by simp [handleWechat, processMessage, hE], by decide⟩
    · by_cases hc : content = ""
      · exact Or.inl ⟨"未获取到有效内容",
          by simp [handleWechat, processMessage, hE, hc], by decide⟩
      · rcases hA : analyze (pyTruncate 3000 content) with e | analysis
        · exact Or.inl ⟨"分析服务暂时不可用",
            by simp [handleWechat, processMessage, hE, hc, hA], by decide⟩
        · have hR : handleWechat get xp rd analyze (.link u) =
              generateReply analysis := by
            simp [handleWechat, processMessage, hE, hc, hA]
          rw [hR]
          exact generateReply_shape analysis

/-- C10: the details validation checks only list-ness, not element
types — a details list with a non-string element (score and analysis
otherwise valid) passes both validation checks, the failure happens only
at the bullet join inside the card construction, and the generic handler
turns it into the fixed reply-generation error text. -/
theorem c10_nonstring_detail_passes_validation
    (s : Int) (a : String) (ds : List Json)
    (h : ∃ x ∈ ds, x.isStr = false) :
    pyAllKeys (detailsProbe s a ds) ["score", "analysis", "details"] = .ok true
    ∧ pyGetItem (detailsProbe s a ds) "details" = .ok (.arr ds)
    ∧ (Json.arr ds).isArr = true
    ∧ (∃ e, pyJoinStrs ds = Except.error e)
    ∧ postParse (detailsProbe s a ds) = .text "生成回复时发生错误" := by
  rcases pyJoinStrs_error_of_nonstring ds h with ⟨e, he⟩
  refine ⟨?_, ?_, rfl, ⟨e, he⟩, ?_⟩
  · simp [detailsProbe, pyAllKeys, pyContains]
  · simp [detailsProbe, pyGetItem, lookupLast]
  · simp [postParse, buildCard, detailsProbe, pyAllKeys, pyContains,
          pyGetItem, lookupLast, pyInt, Json.isArr, he]

/-- C10 (witness): the theorem applied to the concrete details list
containing the number 5 next to a string. -/
theorem c10_nonstring_detail_passes_validation_witness :
    postParse (detailsProbe 80 "x" [.str "a", .num 5]) =
      .text "生成回复时发生错误" :=
  (c10_nonstring_detail_passes_validation 80 "x" [.str "a", .num 5]
    (by decide)).2.2.2.2

end Metis
